import Mathlib

/-!
Shallow embedding of the Civo Terraform provider resources
(firewall, firewall rule, volume attachment) and proofs about their
CRUD behaviour.

Go functions returning `(*T, error)` are embedded by taking the pair of
the optional response and the optional error message as an explicit
input (`GoResult T`): the remote API is an oracle, and theorems quantify
over every response it could give.  A Go function that would dereference
a nil pointer is embedded with an explicit `panics` outcome.
Terraform `diag.Diagnostics` is `Option String` (`none` = no diagnostic).
-/

/-- Result of a Go SDK call `resp, err := client.Call(...)`:
`resp` may be nil (none) and `err` may be nil (none), independently. -/
structure GoResult (α : Type) where
  resp : Option α
  err : Option String
deriving Repr, DecidableEq

/-- Outcome of a resource CRUD function: normal return with the final
resource data and an optional diagnostic, or a nil-dereference panic. -/
inductive Outcome (σ : Type) where
  | ok (d : σ) (diag : Option String)
  | panics
deriving Repr, DecidableEq

/-- Outcome of the importer, whose Go signature is
`([]*schema.ResourceData, error)`: data on success, a bare error
(no state returned), or a nil-dereference panic. -/
inductive ImportResult (σ : Type) where
  | ok (d : σ)
  | err (e : String)
  | panics
deriving Repr, DecidableEq

/-- civogo `FirewallRule` API object (the fields the provider reads). -/
structure FirewallRule where
  ID : String
  FirewallID : String
  Protocol : String
  StartPort : String
  EndPort : String
  Cidr : List String
  Direction : String
  Action : String
  Label : String
deriving Repr, DecidableEq

/-- civogo `Firewall` API object (the fields the provider reads). -/
structure Firewall where
  ID : String
  Name : String
  NetworkID : String
deriving Repr, DecidableEq

/-- civogo `Volume` API object (the field the provider reads). -/
structure Volume where
  ID : String
  InstanceID : String
deriving Repr, DecidableEq

/-- Terraform state of a `civo_firewall_rule` resource:
the resource id plus the declared schema fields. -/
structure FirewallRuleData where
  id : String
  firewall_id : String
  protocol : String
  start_port : String
  end_port : String
  cidr : List String
  direction : String
  action : String
  label : String
  region : String
deriving Repr, DecidableEq

/-- Terraform state of a `civo_firewall` resource.  During an update the
SDK exposes both the prior value (`oldName`) and the planned value
(`name`); `d.HasChange` compares them and `d.Get` returns the new one. -/
structure FirewallData where
  id : String
  oldName : String
  name : String
  network_id : String
  region : String
deriving Repr, DecidableEq

/-- Terraform state of a `civo_volume_attachment` resource. -/
structure VolAttachData where
  id : String
  instance_id : String
  volume_id : String
  region : String
deriving Repr, DecidableEq

/-- Embeds `resourceFirewallRuleRead` (resource_firewall_rule.go): find the rule;
on error with nil response clear the id and return nil; on error with a
response return a diagnostic; otherwise copy the response fields into
state, skipping `end_port` when the remote value is empty. -/
def resourceFirewallRuleRead (find : GoResult FirewallRule)
    (d : FirewallRuleData) : Outcome FirewallRuleData :=
  match find.err with
  | some e =>
    match find.resp with
    | none => .ok { d with id := "" } none
    | some _ => .ok d (some ("[ERR] error retrieving firewall rule: " ++ e))
  | none =>
    match find.resp with
    | none => .panics
    | some r =>
      .ok { d with
            firewall_id := r.FirewallID
            protocol := r.Protocol
            start_port := r.StartPort
            end_port := if r.EndPort != "" then r.EndPort else d.end_port
            cidr := r.Cidr
            direction := r.Direction
            action := r.Action
            label := r.Label } none

/-- Embeds `resourceFirewallRuleDelete` (resource_firewall_rule.go): call the
remote delete directly; any error becomes a diagnostic.  There is no
existence check. -/
def resourceFirewallRuleDelete (del : GoResult Unit)
    (d : FirewallRuleData) : Outcome FirewallRuleData :=
  match del.err with
  | some e =>
    .ok d (some ("[ERR] an error occurred while tring to delete firewall rule "
      ++ d.id ++ " - " ++ e))
  | none => .ok d none

/-- Splits a character list at every colon; structurally recursive so
that concrete instances reduce inside the kernel. -/
def splitOnColon (cs : List Char) : List (List Char) :=
  match cs with
  | [] => [[]]
  | c :: rest =>
    match splitOnColon rest with
    | [] => [[c]]
    | h :: t => if c = ':' then [] :: h :: t else (c :: h) :: t

/-- Modelled from the spec: `utils.ResourceCommonParseID` lives in
`internal/utils`, which is not under src/.  The spec says the import
identifier is "a composite string encoding parent and child identifiers,
parsed into two components"; we model it as a split on a separator that
succeeds exactly when the string has two components. -/
def ResourceCommonParseID (s : String) : Except String (String × String) :=
  match (splitOnColon s.data).map (fun l => String.mk l) with
  | [a, b] => .ok (a, b)
  | _ => .error ("invalid ID format, expected parentID:childID but got " ++ s)

/-- Embeds `resourceFirewallRuleImport` (resource_firewall_rule.go): parse the
composite id; on parse failure return that error.  Then look the rule up;
on error the code returns only when the response is non-nil, otherwise it
falls through and dereferences the response unconditionally. -/
def resourceFirewallRuleImport (find : GoResult FirewallRule)
    (d : FirewallRuleData) : ImportResult FirewallRuleData :=
  match ResourceCommonParseID d.id with
  | .error e => .err e
  | .ok _ =>
    -- `if err != nil { if resp != nil { return nil, err } }` then fall through
    match find.err, find.resp with
    | some e, some _ => .err e
    | _, none => .panics
    | none, some r =>
      .ok { d with
            id := r.ID
            firewall_id := r.FirewallID
            protocol := r.Protocol
            start_port := r.StartPort
            end_port := r.EndPort
            cidr := r.Cidr
            direction := r.Direction
            action := r.Action
            label := r.Label }

/-- Embeds `resourceFirewallRead` (firewall resource file): find the firewall;
on error with nil response clear the id and return nil; on error with a
response return a diagnostic; otherwise copy name and network_id. -/
def resourceFirewallRead (find : GoResult Firewall)
    (d : FirewallData) : Outcome FirewallData :=
  match find.err with
  | some e =>
    match find.resp with
    | none => .ok { d with id := "" } none
    | some _ => .ok d (some ("[ERR] error retrieving firewall: " ++ e))
  | none =>
    match find.resp with
    | none => .panics
    | some r =>
      .ok { d with name := r.Name, network_id := r.NetworkID } none

/-- Embeds `resourceFirewallUpdate` (firewall resource file): when the name has
changed and the new name is non-empty, call `RenameFirewall` (failure is
a diagnostic); then (in every non-error path) delegate to
`resourceFirewallRead`.  The Bool records whether the rename call was
issued. -/
def resourceFirewallUpdate (ren : GoResult Unit) (findR : GoResult Firewall)
    (d : FirewallData) : Outcome FirewallData × Bool :=
  if d.oldName != d.name && d.name != "" then
    match ren.err with
    | some e =>
      (.ok d (some ("[WARN] an error occurred while tring to rename the firewall "
        ++ d.id ++ ", " ++ e)), true)
    | none => (resourceFirewallRead findR d, true)
  else
    (resourceFirewallRead findR d, false)

/-- Embeds `resourceFirewallDelete` (firewall resource file): first a
best-effort `FindFirewall`; if that errors, return nil immediately (the
firewall is probably already gone).  Otherwise call `DeleteFirewall` and
surface its failure as a diagnostic.  The Bool records whether the
remote delete call was issued. -/
def resourceFirewallDelete (find : GoResult Firewall) (del : GoResult Unit)
    (d : FirewallData) : Outcome FirewallData × Bool :=
  match find.err with
  | some _ => (.ok d none, false)
  | none =>
    match del.err with
    | some e =>
      (.ok d (some ("[ERR] an error occurred while tring to delete the firewall "
        ++ d.id ++ ", " ++ e)), true)
    | none => (.ok d none, true)

/-- Embeds `resourceVolumeAttachmentRead` (resource_volume_attachment.go): find
the volume; on error with nil response clear the id and return nil; on
error with a response return a diagnostic; otherwise clear the id when
the volume's instance pointer is empty or differs from `instance_id`. -/
def resourceVolumeAttachmentRead (find : GoResult Volume)
    (d : VolAttachData) : Outcome VolAttachData :=
  match find.err with
  | some e =>
    match find.resp with
    | none => .ok { d with id := "" } none
    | some _ => .ok d (some ("[ERR] failed retrieving the volume: " ++ e))
  | none =>
    match find.resp with
    | none => .panics
    | some v =>
      if v.InstanceID == "" || v.InstanceID != d.instance_id then
        .ok { d with id := "" } none
      else
        .ok d none

/-- The SDK helper `resource.PrefixedUniqueId(pre)`: it returns the given
string with a unique suffix appended; the suffix (a counter/timestamp the
SDK generates) is an oracle input here. -/
def PrefixedUniqueId (pre uniq : String) : String := pre ++ uniq

/-- Lines 57-74 of `resourceVolumeAttachmentCreate`: find the volume
(failure is a diagnostic); attach exactly when the volume's instance
pointer is empty or differs from the requested instance (failure is a
diagnostic); then set the locally synthesized id.  The Bool records
whether `AttachVolume` was called. -/
def volAttachCreateStep (findC : GoResult Volume) (attach : GoResult Unit)
    (uniq : String) (d : VolAttachData) : Outcome VolAttachData × Bool :=
  match findC.err with
  | some e => (.ok d (some ("[ERR] Error retrieving volume: " ++ e)), false)
  | none =>
    match findC.resp with
    | none => (.panics, false)
    | some volume =>
      let newID := PrefixedUniqueId (d.instance_id ++ "-" ++ d.volume_id ++ "-") uniq
      if volume.InstanceID == "" || volume.InstanceID != d.instance_id then
        match attach.err with
        | some e =>
          (.ok d (some ("[ERR] error attaching volume to instance " ++ e)), true)
        | none =>
          (.ok { d with id := newID } none, true)
      else
        (.ok { d with id := newID } none, false)

/-- Embeds `resourceVolumeAttachmentCreate` in full: the create step above,
then (on success) the delegated `resourceVolumeAttachmentRead` with the
read's own find result. -/
def resourceVolumeAttachmentCreate (findC : GoResult Volume)
    (attach : GoResult Unit) (uniq : String) (findR : GoResult Volume)
    (d : VolAttachData) : Outcome VolAttachData × Bool :=
  match volAttachCreateStep findC attach uniq d with
  | (.panics, b) => (.panics, b)
  | (.ok d' (some e), b) => (.ok d' (some e), b)
  | (.ok d' none, b) => (resourceVolumeAttachmentRead findR d', b)

/-- Embeds `resourceVolumeAttachmentDelete` (resource_volume_attachment.go):
call `DetachVolume` directly; any error becomes a diagnostic.  There is
no existence check. -/
def resourceVolumeAttachmentDelete (det : GoResult Unit)
    (d : VolAttachData) : Outcome VolAttachData :=
  match det.err with
  | some e =>
    .ok d (some ("[ERR] an error occurred while tring to detach the volume " ++ e))
  | none => .ok d none

/-- One declared schema field: its name and the flags the provider sets. -/
structure SchemaField where
  name : String
  typ : String
  required : Bool
  optional : Bool
  computed : Bool
  forceNew : Bool
deriving Repr, DecidableEq

/-- A resource declaration: its schema and which CRUD/import handlers it
registers. -/
structure ResourceDecl where
  fields : List SchemaField
  hasCreate : Bool
  hasRead : Bool
  hasUpdate : Bool
  hasDelete : Bool
  hasImporter : Bool
deriving Repr, DecidableEq

/-- The `resourceFirewallRule` schema declaration, field by field. -/
def firewallRuleResourceDecl : ResourceDecl :=
  { fields :=
      [ { name := "firewall_id", typ := "string", required := true,
          optional := false, computed := false, forceNew := true },
        { name := "protocol", typ := "string", required := false,
          optional := true, computed := true, forceNew := true },
        { name := "start_port", typ := "string", required := false,
          optional := true, computed := true, forceNew := true },
        { name := "end_port", typ := "string", required := false,
          optional := true, computed := true, forceNew := true },
        { name := "cidr", typ := "set", required := true,
          optional := false, computed := false, forceNew := true },
        { name := "direction", typ := "string", required := true,
          optional := false, computed := false, forceNew := true },
        { name := "action", typ := "string", required := true,
          optional := false, computed := false, forceNew := true },
        { name := "label", typ := "string", required := false,
          optional := true, computed := true, forceNew := true },
        { name := "region", typ := "string", required := false,
          optional := true, computed := true, forceNew := true } ],
    hasCreate := true, hasRead := true, hasUpdate := false,
    hasDelete := true, hasImporter := true }

/-- Sample firewall-rule Terraform state used by concrete witnesses. -/
def dRule0 : FirewallRuleData :=
  { id := "fw1:rule1", firewall_id := "fw1", protocol := "tcp",
    start_port := "80", end_port := "", cidr := ["0.0.0.0/0"],
    direction := "ingress", action := "allow", label := "web",
    region := "LON1" }

/-- Sample firewall Terraform state used by concrete witnesses. -/
def dFw0 : FirewallData :=
  { id := "fw1", oldName := "old", name := "new",
    network_id := "net1", region := "LON1" }

/-- Sample volume-attachment Terraform state used by concrete witnesses. -/
def dVol0 : VolAttachData :=
  { id := "att1", instance_id := "inst1", volume_id := "vol1",
    region := "LON1" }

/-- Sample remote firewall rule used by concrete witnesses. -/
def rule0 : FirewallRule :=
  { ID := "rule1", FirewallID := "fw1", Protocol := "udp",
    StartPort := "53", EndPort := "54", Cidr := ["10.0.0.0/8"],
    Direction := "ingress", Action := "deny", Label := "dns" }

/-- Sample remote volume used by concrete witnesses. -/
def vol0 : Volume := { ID := "vol1", InstanceID := "inst1" }

/-- C5: the firewall-rule resource is immutable after creation: every
declared schema field (firewall_id, protocol, start_port, end_port,
cidr, direction, action, label, region) is marked force-new and the
resource registers no update handler. -/
theorem firewall_rule_immutable_schema :
    firewallRuleResourceDecl.fields.all (fun f => f.forceNew) = true ∧
    firewallRuleResourceDecl.fields.map (fun f => f.name) =
      ["firewall_id", "protocol", "start_port", "end_port", "cidr",
       "direction", "action", "label", "region"] ∧
    firewallRuleResourceDecl.hasUpdate = false :=
  ⟨rfl, rfl, rfl⟩

/-- C1 counterexample: deleting a firewall rule whose remote counterpart
is not found (the remote delete call fails) does NOT succeed silently:
the delete performs no existence check and returns a user-visible
diagnostic, contradicting the claim that every delete treats not-found
as success. -/
theorem firewall_rule_delete_not_found_yields_diagnostic :
    resourceFirewallRuleDelete ⟨none, some "NotFound"⟩ dRule0 ≠ .ok dRule0 none ∧
    resourceFirewallRuleDelete ⟨none, some "NotFound"⟩ dRule0 =
      .ok dRule0 (some ("[ERR] an error occurred while tring to delete firewall rule "
        ++ "fw1:rule1 - NotFound")) := by
  constructor
  · decide
  · rfl

/-- C1 amended: only the firewall delete performs a best-effort
existence check and treats a failed lookup (not found) as silent
success; the firewall-rule and volume-attachment deletes call the
remote delete directly and surface any failure, including not-found,
as an error diagnostic. -/
theorem delete_policy_per_resource
    (df : FirewallData) (ffind : GoResult Firewall) (fdel : GoResult Unit)
    (dr : FirewallRuleData) (rdel : GoResult Unit)
    (dv : VolAttachData) (vdet : GoResult Unit) :
    (∀ e, ffind.err = some e →
      resourceFirewallDelete ffind fdel df = (.ok df none, false)) ∧
    (∀ e, ffind.err = none → fdel.err = some e →
      ∃ m, resourceFirewallDelete ffind fdel df = (.ok df (some m), true)) ∧
    (ffind.err = none → fdel.err = none →
      resourceFirewallDelete ffind fdel df = (.ok df none, true)) ∧
    (∀ e, rdel.err = some e →
      ∃ m, resourceFirewallRuleDelete rdel dr = .ok dr (some m)) ∧
    (∀ e, vdet.err = some e →
      ∃ m, resourceVolumeAttachmentDelete vdet dv = .ok dv (some m)) := by
  refine ⟨?_, ?_, ?_, ?_, ?_⟩
  · intro e he
    simp [resourceFirewallDelete, he]
  · intro e hf hd
    refine ⟨"[ERR] an error occurred while tring to delete the firewall "
      ++ df.id ++ ", " ++ e, ?_⟩
    simp [resourceFirewallDelete, hf, hd]
  · intro hf hd
    simp [resourceFirewallDelete, hf, hd]
  · intro e he
    refine ⟨"[ERR] an error occurred while tring to delete firewall rule "
      ++ dr.id ++ " - " ++ e, ?_⟩
    simp [resourceFirewallRuleDelete, he]
  · intro e he
    refine ⟨"[ERR] an error occurred while tring to detach the volume " ++ e, ?_⟩
    simp [resourceVolumeAttachmentDelete, he]

/-- Witness for C1 amended: concrete instantiation — a firewall whose
lookup fails is deleted silently, while a firewall-rule delete whose
remote call fails produces a diagnostic. -/
theorem delete_policy_per_resource_witness :
    resourceFirewallDelete ⟨none, some "nf"⟩ ⟨none, none⟩ dFw0 = (.ok dFw0 none, false) ∧
    ∃ m, resourceFirewallRuleDelete ⟨none, some "nf"⟩ dRule0 = .ok dRule0 (some m) :=
  ⟨(delete_policy_per_resource dFw0 ⟨none, some "nf"⟩ ⟨none, none⟩ dRule0
      ⟨none, some "nf"⟩ dVol0 ⟨none, some "nf"⟩).1 "nf" rfl,
   (delete_policy_per_resource dFw0 ⟨none, some "nf"⟩ ⟨none, none⟩ dRule0
      ⟨none, some "nf"⟩ dVol0 ⟨none, some "nf"⟩).2.2.2.1 "nf" rfl⟩

/-- C2: for each of the three reads, a failed lookup with a nil
response clears the local id and returns no diagnostic, while a failed
lookup with a non-nil response returns a diagnostic and leaves the
state (in particular the id) unchanged. -/
theorem read_drift_vs_error
    (dr : FirewallRuleData) (fr : GoResult FirewallRule)
    (df : FirewallData) (ff : GoResult Firewall)
    (dv : VolAttachData) (fv : GoResult Volume) :
    (∀ e, fr.err = some e → fr.resp = none →
      resourceFirewallRuleRead fr dr = .ok { dr with id := "" } none) ∧
    (∀ e r, fr.err = some e → fr.resp = some r →
      resourceFirewallRuleRead fr dr =
        .ok dr (some ("[ERR] error retrieving firewall rule: " ++ e))) ∧
    (∀ e, ff.err = some e → ff.resp = none →
      resourceFirewallRead ff df = .ok { df with id := "" } none) ∧
    (∀ e r, ff.err = some e → ff.resp = some r →
      resourceFirewallRead ff df =
        .ok df (some ("[ERR] error retrieving firewall: " ++ e))) ∧
    (∀ e, fv.err = some e → fv.resp = none →
      resourceVolumeAttachmentRead fv dv = .ok { dv with id := "" } none) ∧
    (∀ e v, fv.err = some e → fv.resp = some v →
      resourceVolumeAttachmentRead fv dv =
        .ok dv (some ("[ERR] failed retrieving the volume: " ++ e))) := by
  refine ⟨?_, ?_, ?_, ?_, ?_, ?_⟩
  · intro e he hr
    simp [resourceFirewallRuleRead, he, hr]
  · intro e r he hr
    simp [resourceFirewallRuleRead, he, hr]
  · intro e he hr
    simp [resourceFirewallRead, he, hr]
  · intro e r he hr
    simp [resourceFirewallRead, he, hr]
  · intro e he hr
    simp [resourceVolumeAttachmentRead, he, hr]
  · intro e v he hr
    simp [resourceVolumeAttachmentRead, he, hr]

/-- Witness for C2: concrete instantiation of the silent-drift branch
and of the diagnostic branch. -/
theorem read_drift_vs_error_witness :
    resourceFirewallRuleRead ⟨none, some "boom"⟩ dRule0 =
      .ok { dRule0 with id := "" } none ∧
    resourceVolumeAttachmentRead ⟨some vol0, some "boom"⟩ dVol0 =
      .ok dVol0 (some ("[ERR] failed retrieving the volume: " ++ "boom")) :=
  ⟨(read_drift_vs_error dRule0 ⟨none, some "boom"⟩ dFw0 ⟨none, some "boom"⟩
      dVol0 ⟨some vol0, some "boom"⟩).1 "boom" rfl rfl,
   (read_drift_vs_error dRule0 ⟨none, some "boom"⟩ dFw0 ⟨none, some "boom"⟩
      dVol0 ⟨some vol0, some "boom"⟩).2.2.2.2.2 "boom" vol0 rfl rfl⟩

/-- Sample remote firewall used by concrete witnesses. -/
def fw0 : Firewall := { ID := "fw1", Name := "fw", NetworkID := "net1" }

/-- C3: volume-attachment create — given a successful volume lookup,
the attach call is issued exactly when the volume's instance pointer is
empty or differs from the requested instance; when the pointer already
equals the (non-empty) requested instance_id, no attach call is issued
and the local id is still set to the synthesized string. -/
theorem volume_attachment_create_attach_iff
    (d : VolAttachData) (v : Volume) (findC : GoResult Volume)
    (attach : GoResult Unit) (uniq : String)
    (hfe : findC.err = none) (hfr : findC.resp = some v) :
    ((volAttachCreateStep findC attach uniq d).2 =
      (v.InstanceID == "" || v.InstanceID != d.instance_id)) ∧
    (v.InstanceID = d.instance_id → d.instance_id ≠ "" →
      volAttachCreateStep findC attach uniq d =
        (.ok { d with
               id := PrefixedUniqueId
                 (d.instance_id ++ "-" ++ d.volume_id ++ "-") uniq } none, false)) := by
  constructor
  · by_cases h : (v.InstanceID == "" || v.InstanceID != d.instance_id) = true
    · cases hae : attach.err with
      | some e => simp [volAttachCreateStep, hfe, hfr, hae, h]
      | none => simp [volAttachCreateStep, hfe, hfr, hae, h]
    · rw [Bool.not_eq_true] at h
      simp [volAttachCreateStep, hfe, hfr, h]
  · intro h1 h2
    have hc : (v.InstanceID == "" || v.InstanceID != d.instance_id) = false := by
      simp [h1, h2]
    simp [volAttachCreateStep, hfe, hfr, hc]

/-- Witness for C3: a volume already attached to the requested instance
is not re-attached, and the id is still synthesized. -/
theorem volume_attachment_create_attach_iff_witness :
    volAttachCreateStep ⟨some vol0, none⟩ ⟨none, none⟩ "u1" dVol0 =
      (.ok { dVol0 with
             id := PrefixedUniqueId
               (dVol0.instance_id ++ "-" ++ dVol0.volume_id ++ "-") "u1" } none, false) :=
  (volume_attachment_create_attach_iff dVol0 vol0 ⟨some vol0, none⟩
    ⟨none, none⟩ "u1" rfl rfl).2 rfl (by decide)

/-- C4: firewall update — the rename call is issued iff the name field
changed and the new name is non-empty; otherwise the update is exactly
the read refresh and no rename call is issued. -/
theorem firewall_update_rename_iff_changed
    (d : FirewallData) (ren : GoResult Unit) (findR : GoResult Firewall) :
    ((resourceFirewallUpdate ren findR d).2 = true ↔
      (d.oldName ≠ d.name ∧ d.name ≠ "")) ∧
    (d.oldName = d.name ∨ d.name = "" →
      resourceFirewallUpdate ren findR d = (resourceFirewallRead findR d, false)) := by
  have hb : (d.oldName != d.name && d.name != "") = true ↔
      (d.oldName ≠ d.name ∧ d.name ≠ "") := by
    simp [Bool.and_eq_true, bne_iff_ne]
  constructor
  · by_cases h : (d.oldName != d.name && d.name != "") = true
    · cases hae : ren.err with
      | some e => simp [resourceFirewallUpdate, h, hae, hb.mp h]
      | none => simp [resourceFirewallUpdate, h, hae, hb.mp h]
    · rw [Bool.not_eq_true] at h
      simp only [resourceFirewallUpdate, h, Bool.false_eq_true, if_false]
      constructor
      · intro hfalse
        exact absurd hfalse (by simp)
      · intro hand
        exact absurd (hb.mpr hand) (by simp [h])
  · intro hor
    have hc : (d.oldName != d.name && d.name != "") = false := by
      rcases hor with h | h <;> simp [h]
    simp [resourceFirewallUpdate, hc]

/-- Witness for C4: an update with an unchanged name issues no rename
call and reduces to the read refresh. -/
theorem firewall_update_rename_iff_changed_witness :
    resourceFirewallUpdate ⟨none, none⟩ ⟨some fw0, none⟩ { dFw0 with oldName := "new" } =
      (resourceFirewallRead ⟨some fw0, none⟩ { dFw0 with oldName := "new" }, false) :=
  (firewall_update_rename_iff_changed { dFw0 with oldName := "new" }
    ⟨none, none⟩ ⟨some fw0, none⟩).2 (Or.inl rfl)

/-- C6: firewall-rule import — the composite id is parsed into exactly
two components; a parse failure is returned as the import's error (no
state populated); on a successful parse and lookup every imported field,
id included, equals the looked-up remote rule's value. -/
theorem firewall_rule_import_parse_and_populate
    (d : FirewallRuleData) (find : GoResult FirewallRule) :
    (∀ a b, ResourceCommonParseID d.id = .ok (a, b) →
      (splitOnColon d.id.data).map (fun l => String.mk l) = [a, b]) ∧
    (∀ e, ResourceCommonParseID d.id = .error e →
      resourceFirewallRuleImport find d = .err e) ∧
    (∀ p r, ResourceCommonParseID d.id = .ok p → find.err = none →
      find.resp = some r →
      resourceFirewallRuleImport find d =
        .ok { d with
              id := r.ID, firewall_id := r.FirewallID,
              protocol := r.Protocol, start_port := r.StartPort,
              end_port := r.EndPort, cidr := r.Cidr,
              direction := r.Direction, action := r.Action,
              label := r.Label }) := by
  refine ⟨?_, ?_, ?_⟩
  · intro a b h
    unfold ResourceCommonParseID at h
    split at h
    next x y heq =>
      simp only [Except.ok.injEq, Prod.mk.injEq] at h
      rw [heq, h.1, h.2]
    next => simp at h
  · intro e h
    simp [resourceFirewallRuleImport, h]
  · intro p r hp hfe hfr
    simp [resourceFirewallRuleImport, hp, hfe, hfr]

/-- Witness for C6: importing with the composite id of `dRule0` and a
successful lookup populates every field from the remote rule. -/
theorem firewall_rule_import_parse_and_populate_witness :
    resourceFirewallRuleImport ⟨some rule0, none⟩ dRule0 =
      .ok { dRule0 with
            id := rule0.ID, firewall_id := rule0.FirewallID,
            protocol := rule0.Protocol, start_port := rule0.StartPort,
            end_port := rule0.EndPort, cidr := rule0.Cidr,
            direction := rule0.Direction, action := rule0.Action,
            label := rule0.Label } :=
  (firewall_rule_import_parse_and_populate dRule0 ⟨some rule0, none⟩).2.2
    ("fw1", "rule1") rule0 rfl rfl rfl

/-- C7: volume-attachment read invariant — after a read that completes
without a diagnostic, a non-empty local id implies the looked-up
volume's instance pointer equals the referenced instance_id; and
whenever the volume's pointer is empty or points elsewhere, the read
clears the local id. -/
theorem volume_attachment_read_invariant
    (d d' : VolAttachData) (find : GoResult Volume) :
    (resourceVolumeAttachmentRead find d = .ok d' none → d'.id ≠ "" →
      ∃ v, find.err = none ∧ find.resp = some v ∧ v.InstanceID = d.instance_id) ∧
    (∀ v, find.err = none → find.resp = some v →
      v.InstanceID = "" ∨ v.InstanceID ≠ d.instance_id →
      resourceVolumeAttachmentRead find d = .ok { d with id := "" } none) := by
  constructor
  · intro h hid
    cases he : find.err with
    | some e =>
      cases hr : find.resp with
      | none =>
        simp [resourceVolumeAttachmentRead, he, hr] at h
        subst h
        simp at hid
      | some v => simp [resourceVolumeAttachmentRead, he, hr] at h
    | none =>
      cases hr : find.resp with
      | none => simp [resourceVolumeAttachmentRead, he, hr] at h
      | some v =>
        by_cases hc : (v.InstanceID == "" || v.InstanceID != d.instance_id) = true
        · simp [resourceVolumeAttachmentRead, he, hr, hc] at h
          subst h
          simp at hid
        · rw [Bool.not_eq_true] at hc
          simp [resourceVolumeAttachmentRead, he, hr, hc] at h
          subst h
          simp at hc
          exact ⟨v, rfl, rfl, hc.2⟩
  · intro v he hr hcond
    have hc : (v.InstanceID == "" || v.InstanceID != d.instance_id) = true := by
      rcases hcond with hx | hx <;> simp [hx]
    simp [resourceVolumeAttachmentRead, he, hr, hc]

/-- Witness for C7: reading the attachment while the volume reports an
empty instance pointer clears the local id without error. -/
theorem volume_attachment_read_invariant_witness :
    resourceVolumeAttachmentRead ⟨some { ID := "vol1", InstanceID := "" }, none⟩ dVol0 =
      .ok { dVol0 with id := "" } none :=
  (volume_attachment_read_invariant dVol0 dVol0
    ⟨some { ID := "vol1", InstanceID := "" }, none⟩).2
    { ID := "vol1", InstanceID := "" } rfl rfl (Or.inl rfl)

/-- C8: the volume-attachment id set by the create step is always the
locally synthesized string built from instance_id and volume_id (in
that order) plus the unique suffix; it does not depend on anything the
remote API returned: two successful create steps with arbitrary,
possibly different, remote responses produce the same id. -/
theorem volume_attachment_id_locally_synthesized
    (findC findC' : GoResult Volume) (attach attach' : GoResult Unit)
    (uniq : String) (d out out' : VolAttachData) (b b' : Bool)
    (h : volAttachCreateStep findC attach uniq d = (.ok out none, b)) :
    out.id = PrefixedUniqueId (d.instance_id ++ "-" ++ d.volume_id ++ "-") uniq ∧
    (volAttachCreateStep findC' attach' uniq d = (.ok out' none, b') →
      out.id = out'.id) := by
  have key : ∀ (fc : GoResult Volume) (a : GoResult Unit) (o : VolAttachData) (bb : Bool),
      volAttachCreateStep fc a uniq d = (.ok o none, bb) →
      o.id = PrefixedUniqueId (d.instance_id ++ "-" ++ d.volume_id ++ "-") uniq := by
    intro fc a o bb hh
    cases hfe : fc.err with
    | some e => simp [volAttachCreateStep, hfe] at hh
    | none =>
      cases hfr : fc.resp with
      | none => simp [volAttachCreateStep, hfe, hfr] at hh
      | some v =>
        by_cases hc : (v.InstanceID == "" || v.InstanceID != d.instance_id) = true
        · cases hae : a.err with
          | some e2 => simp [volAttachCreateStep, hfe, hfr, hc, hae] at hh
          | none =>
            simp [volAttachCreateStep, hfe, hfr, hc, hae] at hh
            obtain ⟨h1, h2⟩ := hh
            subst h1
            rfl
        · rw [Bool.not_eq_true] at hc
          simp [volAttachCreateStep, hfe, hfr, hc] at hh
          obtain ⟨h1, h2⟩ := hh
          subst h1
          rfl
  refine ⟨key findC attach out b h, fun h' => ?_⟩
  rw [key findC attach out b h, key findC' attach' out' b' h']

/-- The volume-attachment state carrying the locally synthesized id,
used by the C8 witness. -/
def dVolSynth : VolAttachData :=
  { dVol0 with
    id := PrefixedUniqueId (dVol0.instance_id ++ "-" ++ dVol0.volume_id ++ "-") "u1" }

/-- Witness for C8: a concrete successful create step produces exactly
the synthesized id. -/
theorem volume_attachment_id_locally_synthesized_witness :
    dVolSynth.id =
      PrefixedUniqueId (dVol0.instance_id ++ "-" ++ dVol0.volume_id ++ "-") "u1" :=
  (volume_attachment_id_locally_synthesized
    ⟨some { ID := "vol1", InstanceID := "" }, none⟩
    ⟨some { ID := "vol1", InstanceID := "" }, none⟩
    ⟨none, none⟩ ⟨none, none⟩ "u1" dVol0 dVolSynth dVolSynth true true (by rfl)).1

/-- C9: in the firewall-rule importer a failed lookup with a nil
response is not returned early: it falls through to an unconditional
dereference of the response, so the panic branch is reachable at a
concrete input; whenever the lookup response is non-nil the importer
cannot reach the panic branch. -/
theorem firewall_rule_import_nil_response_panics
    (find : GoResult FirewallRule) (d : FirewallRuleData) :
    resourceFirewallRuleImport ⟨none, some "rule not found"⟩ dRule0 = .panics ∧
    (∀ r, find.resp = some r → resourceFirewallRuleImport find d ≠ .panics) := by
  constructor
  · rfl
  · intro r hr
    cases hp : ResourceCommonParseID d.id with
    | error e => simp [resourceFirewallRuleImport, hp]
    | ok p =>
      cases he : find.err with
      | some e => simp [resourceFirewallRuleImport, hp, hr, he]
      | none => simp [resourceFirewallRuleImport, hp, hr, he]

/-- Witness for C9: a failed lookup whose response is non-nil does not
panic (it returns the error instead). -/
theorem firewall_rule_import_nil_response_panics_witness :
    resourceFirewallRuleImport ⟨some rule0, some "boom"⟩ dRule0 ≠ .panics :=
  (firewall_rule_import_nil_response_panics ⟨some rule0, some "boom"⟩ dRule0).2 rule0 rfl

/-- C10: in the firewall-rule read with a successful lookup, when the
remote end-port is the empty string the stored end_port is left
unchanged while every other field is overwritten from the response;
when the remote end-port is non-empty, end_port is overwritten too. -/
theorem firewall_rule_read_end_port_frame
    (d : FirewallRuleData) (find : GoResult FirewallRule) (r : FirewallRule)
    (he : find.err = none) (hr : find.resp = some r) :
    (r.EndPort = "" →
      resourceFirewallRuleRead find d =
        .ok { d with
              firewall_id := r.FirewallID, protocol := r.Protocol,
              start_port := r.StartPort, cidr := r.Cidr,
              direction := r.Direction, action := r.Action,
              label := r.Label } none) ∧
    (r.EndPort ≠ "" →
      resourceFirewallRuleRead find d =
        .ok { d with
              firewall_id := r.FirewallID, protocol := r.Protocol,
              start_port := r.StartPort, end_port := r.EndPort,
              cidr := r.Cidr, direction := r.Direction,
              action := r.Action, label := r.Label } none) := by
  constructor
  · intro hep
    simp [resourceFirewallRuleRead, he, hr, hep]
  · intro hep
    simp [resourceFirewallRuleRead, he, hr, hep]

/-- Witness for C10: a rule with a non-empty remote end-port overwrites
every field, end_port included. -/
theorem firewall_rule_read_end_port_frame_witness :
    resourceFirewallRuleRead ⟨some rule0, none⟩ dRule0 =
      .ok { dRule0 with
            firewall_id := rule0.FirewallID, protocol := rule0.Protocol,
            start_port := rule0.StartPort, end_port := rule0.EndPort,
            cidr := rule0.Cidr, direction := rule0.Direction,
            action := rule0.Action, label := rule0.Label } none :=
  (firewall_rule_read_end_port_frame dRule0 ⟨some rule0, none⟩ rule0 rfl rfl).2 (by decide)
